import Mathlib

/-!
Verification development for the lavaclient-style node-cluster manager.

The TypeScript sources embedded here are `src/structures/Manager.ts` and
`src/structures/Filters.ts` (with the filter value types from
`types/filters.d.ts`).  JavaScript numbers are modelled as `Rat` (every
comparison performed by the code is an exact equality or ordering test),
`undefined`/absent object fields as `Option`, and the effectful calls made
by the manager (socket sends, player moves, map deletions) as explicit
`Action` values collected in lists.
-/

namespace Lavaclient

/-- Equalizer band, from `types/filters.d.ts` (`band` index and `gain`). -/
structure EqualizerBand where
  band : Int
  gain : Rat
deriving DecidableEq, Repr

/-- Timescale filter; every field is optional in the source type. -/
structure TimescaleFilter where
  pitch : Option Rat
  rate : Option Rat
  speed : Option Rat
deriving DecidableEq, Repr

/-- Tremolo filter. -/
structure TremoloFilter where
  depth : Option Rat
  frequency : Option Rat
deriving DecidableEq, Repr

/-- Karaoke filter. -/
structure KaraokeFilter where
  level : Option Rat
  monoLevel : Option Rat
  filterBand : Option Rat
  filterWidth : Option Rat
deriving DecidableEq, Repr

/-- Rotation filter. -/
structure RotationFilter where
  rotationHz : Option Rat
deriving DecidableEq, Repr

/-- Distortion filter. -/
structure DistortionFilter where
  sinOffset : Option Rat
  sinScale : Option Rat
  cosOffset : Option Rat
  cosScale : Option Rat
  tanOffset : Option Rat
  tanScale : Option Rat
  offset : Option Rat
  scale : Option Rat
deriving DecidableEq, Repr

/-- The mutable filter state of one player (`Filters.ts`, fields set in the
constructor: `volume = 1`, `equalizer = []`, all other filters `null`). -/
structure Filters where
  volume : Rat
  equalizer : List EqualizerBand
  timescale : Option TimescaleFilter
  karaoke : Option KaraokeFilter
  tremolo : Option TremoloFilter
  rotation : Option RotationFilter
  distortion : Option DistortionFilter
deriving DecidableEq, Repr

/-- The filter state a fresh `Filters` instance holds after its constructor. -/
def Filters.initial : Filters :=
  { volume := 1
    equalizer := []
    timescale := none
    karaoke := none
    tremolo := none
    rotation := none
    distortion := none }

/-- Values of the present fields of a timescale object, as `Object.values`
enumerates them (absent optional fields are skipped). -/
def TimescaleFilter.values (t : TimescaleFilter) : List Rat :=
  [t.pitch, t.rate, t.speed].filterMap id

/-- Values of the present fields of a distortion object, as `Object.values`
enumerates them. -/
def DistortionFilter.values (d : DistortionFilter) : List Rat :=
  [d.sinOffset, d.sinScale, d.cosOffset, d.cosScale,
   d.tanOffset, d.tanScale, d.offset, d.scale].filterMap id

/-- `Filters.isEqualizerEnabled`: some band has a gain other than `0.0`. -/
def Filters.isEqualizerEnabled (f : Filters) : Bool :=
  f.equalizer.any fun band => band.gain != 0

/-- `Filters.isTremoloEnabled`: the tremolo object is non-null and its
`depth` is not `0.0` (an absent `depth` is `undefined`, which differs
from `0.0` under the strict inequality the source uses). -/
def Filters.isTremoloEnabled (f : Filters) : Bool :=
  match f.tremolo with
  | none => false
  | some t => t.depth != some 0

/-- `Filters.isKaraokeEnabled`: the karaoke object is non-null. -/
def Filters.isKaraokeEnabled (f : Filters) : Bool :=
  f.karaoke.isSome

/-- `Filters.isTimescaleEnabled`: the timescale object is non-null and some
present field differs from `1.0`. -/
def Filters.isTimescaleEnabled (f : Filters) : Bool :=
  match f.timescale with
  | none => false
  | some t => t.values.any fun v => v != 1

/-- `Filters.isDistortionEnabled`: the distortion object is non-null and
`Object.values` yields some value other than `null`; present fields are
numbers, hence never `null`, so this asks for at least one present field. -/
def Filters.isDistortionEnabled (f : Filters) : Bool :=
  match f.distortion with
  | none => false
  | some d => !d.values.isEmpty

/-- `Filters.isRotationEnabled`: the rotation object is non-null and its
`rotationHz` is not `0.0` (an absent field, being `undefined`, passes). -/
def Filters.isRotationEnabled (f : Filters) : Bool :=
  match f.rotation with
  | none => false
  | some r => r.rotationHz != some 0

/-- The outbound filter payload object: a key is `some` exactly when the
serializer assigned it. -/
structure FilterMapPayload where
  volume : Option Rat
  equalizer : Option (List EqualizerBand)
  timescale : Option TimescaleFilter
  karaoke : Option KaraokeFilter
  tremolo : Option TremoloFilter
  rotation : Option RotationFilter
  distortion : Option DistortionFilter
deriving DecidableEq, Repr

/-- `Filters.payload`: starts from `{volume, equalizer}` and adds each other
filter block only when its enabled predicate holds. -/
def Filters.payload (f : Filters) : FilterMapPayload :=
  { volume := some f.volume
    equalizer := some f.equalizer
    timescale := if f.isTimescaleEnabled then f.timescale else none
    karaoke := if f.isKaraokeEnabled then f.karaoke else none
    tremolo := if f.isTremoloEnabled then f.tremolo else none
    rotation := if f.isRotationEnabled then f.rotation else none
    distortion := if f.isDistortionEnabled then f.distortion else none }

/-- Modelled from the spec: `Socket.ts` is not under `src/`, so the numeric
status enum behind the source's `s.status==0` test is taken from the spec's
connection states, with `CONNECTED` carrying code `0`. -/
inductive SocketStatus where
  | connected
  | connecting
  | reconnecting
  | disconnected
deriving DecidableEq, Repr

/-- Numeric code of a status; only the value `0` (CONNECTED) is ever tested
by the manager. -/
def SocketStatus.code : SocketStatus → Nat
  | .connected => 0
  | .connecting => 1
  | .reconnecting => 2
  | .disconnected => 3

/-- The slice of a `Socket` the manager reads: its id, its status and its
accumulated penalty score. -/
structure Socket where
  id : String
  status : SocketStatus
  penalties : Int
deriving DecidableEq, Repr

/-- JavaScript truthiness of a nullable/optional string (both `null` and
`undefined` are falsy, and so is the empty string). -/
def jsTruthy : Option String → Bool
  | none => false
  | some s => !(s == "")

/-- `Manager#ideal`: the sockets with status code `0`, stably sorted by
ascending penalties.  `Array.prototype.sort` with comparator
`a.penalties - b.penalties` is a stable sort for the total preorder
`penalties ≤ penalties`, which `List.insertionSort` with that relation
computes. -/
def ideal (sockets : List Socket) : List Socket :=
  (sockets.filter fun s => s.status.code == 0).insertionSort
    fun a b => a.penalties ≤ b.penalties

/-- Spec-worded selector (for the refinement comparison with `ideal`):
among the CONNECTED sockets, the first one in configuration order whose
penalty is at or below every other CONNECTED socket's penalty. -/
def selectConnectionSpec (sockets : List Socket) : Option Socket :=
  let connected := sockets.filter fun s => s.status.code == 0
  connected.find? fun s =>
    connected.all fun t => decide (s.penalties ≤ t.penalties)

/-- The slice of a `Player` the manager reads and writes: `Player.ts` is not
under `src/`, but every field here is dictated by the manager's own uses
(`p.socket.id`, `p.channel`, `p.position`, `p.track`, `p._sessionId`,
`p._server`, `p.filters`). -/
structure Player where
  guild : String
  socketId : String
  channel : Option String
  position : Int
  track : Option String
  sessionId : Option String
  server : Option String
  filters : Filters
deriving DecidableEq, Repr

/-- Observable effects the manager triggers on players and sockets. -/
inductive Action where
  | deletePlayer (guild : String)
  | teardown (guild : String)
  | move (guild : String) (socketId : String)
  | sendVoiceUpdate (guild : String) (sessionId : Option String) (server : Option String)
  | sendFilters (guild : String) (payload : FilterMapPayload) (prioritized : Bool)
  | play (guild : String) (track : String) (startTime : Int)
deriving DecidableEq, Repr

/-- `Filters.apply(prioritize)`: sends the payload to the player's socket
with the given priority flag (the source's default for the flag is `false`). -/
def Filters.apply (f : Filters) (guild : String) (prioritize : Bool) : Action :=
  Action.sendFilters guild f.payload prioritize

/-- The manager state the claims touch: the client id, the socket map in
insertion (configuration) order and the player map in insertion order. -/
structure Manager where
  userId : Option String
  sockets : List Socket
  players : List Player
deriving DecidableEq, Repr

/-- Modelled from the spec: the `Player` constructor (`Player.ts` is absent)
binds the fresh player to the given socket for the given guild, with no
voice channel, no track and neutral filters. -/
def newPlayer (socket : Socket) (guild : String) : Player :=
  { guild := guild
    socketId := socket.id
    channel := none
    position := 0
    track := none
    sessionId := none
    server := none
    filters := Filters.initial }

/-- `Manager#create(guild, socket = this.ideal[0])`: returns the existing
player unchanged when one is mapped for the guild, else binds a new player
to the given socket (defaulted to the ideal head) or throws the
no-available-nodes error. -/
def Manager.create (m : Manager) (guildId : String) (socketArg : Option Socket) :
    Except String (Player × Manager) :=
  let socket := match socketArg with
    | some s => some s
    | none => (ideal m.sockets).head?
  match m.players.find? (fun p => p.guild == guildId) with
  | some existing => .ok (existing, m)
  | none =>
    match socket with
    | none => .error "Manager#create(): No available nodes."
    | some s =>
      let player := newPlayer s guildId
      .ok (player, { m with players := m.players ++ [player] })

/-- `Manager#destroy(guild)`: when a player exists, tears it down via
`player.destroy(true)` and deletes it from the map, returning whether one
existed. -/
def Manager.destroy (m : Manager) (guildId : String) :
    List Action × Manager × Bool :=
  match m.players.find? (fun p => p.guild == guildId) with
  | some p =>
    ([Action.teardown p.guild, Action.deletePlayer p.guild],
     { m with players := m.players.filter fun q => !(q.guild == guildId) }, true)
  | none => ([], m, false)

/-- Immediate outcome of `Manager#fallback` for one player: players on other
sockets are skipped; a player with a falsy channel is removed from the map
and the procedure returns; otherwise the anchors `max(position, 0)` and the
current time are captured and the `find_socket` poll starts with them. -/
inductive FallbackOutcome where
  | skipped
  | removed
  | pending (anchorPosition : Int) (anchorTime : Int)
deriving DecidableEq, Repr

/-- Per-player body of `Manager#fallback(socket)`, with the wall clock made
an explicit argument (`now` is the value `new Date().getTime()` yields when
the player is examined). -/
def Manager.fallbackPlayer (lostId : String) (now : Int) (p : Player) :
    FallbackOutcome :=
  if p.socketId == lostId then
    if jsTruthy p.channel = false then
      .removed
    else
      .pending (max p.position 0) now
  else
    .skipped

/-- Map/teardown effects of a fallback outcome: removal is a bare
`players.delete`, and a pending poll has no immediate effect. -/
def fallbackOutcomeActions (p : Player) : FallbackOutcome → List Action
  | .removed => [Action.deletePlayer p.guild]
  | .pending _ _ => []
  | .skipped => []

/-- Success branch of the inner `find_socket` poll: at time `found_time`
the ideal head `target` exists, so the player is moved there, the combined
voice update is sent with whatever halves are stored, the filters are
re-applied (the source calls `apply()` with its default flag) and, when a
truthy track is present, it is replayed at
`position + (found_time - startfind) + 1000`. -/
def find_socket (target : Socket) (p : Player)
    (position startfind found_time : Int) : List Action :=
  let offset := (found_time - startfind) + 1000
  [Action.move p.guild target.id,
   Action.sendVoiceUpdate p.guild p.sessionId p.server,
   p.filters.apply p.guild false]
  ++ match p.track with
     | some t => if t == "" then [] else [Action.play p.guild t (position + offset)]
     | none => []

/-- A Discord voice state update (`DiscordVoiceState` in `Manager.ts`). -/
structure DiscordVoiceState where
  channel_id : Option String
  guild_id : String
  user_id : String
  session_id : String
deriving DecidableEq, Repr

/-- Player-level notifications the manager raises. -/
inductive PlayerEvent where
  | move (guild : String) (channel : Option String)
deriving DecidableEq, Repr

/-- Modelled from the spec: `Player#handleVoiceUpdate` for a state update
(`Player.ts` is absent) stores the session id as the first handshake half
and dispatches the combined voice update only once both halves are
present. -/
def handleVoiceState (p : Player) (session_id : String) : Player × List Action :=
  let p1 := { p with sessionId := some session_id }
  if p1.server.isSome then
    (p1, [Action.sendVoiceUpdate p1.guild p1.sessionId p1.server])
  else
    (p1, [])

/-- `Manager#stateUpdate(update)`: locates the guild's player; when the
update's `user_id` matches the configured client id, raises a `"move"`
event and rewrites `channel` whenever `channel_id` differs from the stored
channel, then forwards the update to the player; otherwise everything is
left untouched.  The first component is the (possibly updated) player, when
one was found. -/
def Manager.stateUpdate (m : Manager) (u : DiscordVoiceState) :
    Option Player × List PlayerEvent × List Action :=
  match m.players.find? (fun p => p.guild == u.guild_id) with
  | none => (none, [], [])
  | some p =>
    if some u.user_id == m.userId then
      let moved := if u.channel_id != p.channel then
          ([PlayerEvent.move p.guild u.channel_id], { p with channel := u.channel_id })
        else
          ([], p)
      let handled := handleVoiceState moved.2 u.session_id
      (some handled.1, moved.1, handled.2)
    else
      (some p, [], [])

/-- A JavaScript function value reaching the manager's options: either the
throwing stub installed by `defaults.send` or a caller-supplied function. -/
inductive JSFun where
  | defaultSendStub
  | userSend (tag : Nat)
deriving DecidableEq, Repr

/-- A JavaScript value in the `send` slot of the options object. -/
inductive JSVal where
  | func (f : JSFun)
  | nullVal
  | undefinedVal
  | otherTruthy
deriving DecidableEq, Repr

/-- JavaScript truthiness of a `send` slot value. -/
def JSVal.truthy : JSVal → Bool
  | .func _ => true
  | .nullVal => false
  | .undefinedVal => false
  | .otherTruthy => true

/-- Whether `typeof v === "function"`. -/
def JSVal.isFunctionTy : JSVal → Bool
  | .func _ => true
  | .nullVal => false
  | .undefinedVal => false
  | .otherTruthy => false

/-- Constructor options: `none` in a slot means the key is absent from the
options object, so `Object.assign(defaults, options)` keeps the default for
it (`defaults.send` is the throwing stub, `defaults.shards` is `1`). -/
structure ManagerOptionsIn where
  send : Option JSVal
  shards : Option Int
deriving DecidableEq, Repr

/-- The configuration a successfully constructed manager retains. -/
structure ManagerConfig where
  send : JSVal
  shards : Int
deriving DecidableEq, Repr

/-- The error message of the constructor's send-function check. -/
def sendCheckError : String :=
  "Please provide a send function for sending packets to discord."

/-- The error message of the constructor's shard-count check. -/
def shardCheckError : String :=
  "Shard count must be 1 or greater."

/-- The `Manager` constructor after `Object.assign(defaults, options)`:
throws the send `TypeError` when the merged `send` is falsy or not a
function, then the shard `TypeError` when the merged shard count is below
one, and otherwise returns the merged configuration. -/
def Manager.construct (o : ManagerOptionsIn) : Except String ManagerConfig :=
  let send := o.send.getD (JSVal.func .defaultSendStub)
  let shards := o.shards.getD 1
  if send.truthy = false ∨ send.isFunctionTy = false then
    .error sendCheckError
  else if shards < 1 then
    .error shardCheckError
  else
    .ok { send := send, shards := shards }

/-- Invoking a value stored in the `send` slot: the default stub throws its
deferred error, a user function succeeds, a non-function cannot be called. -/
def callSend : JSVal → Except String Unit
  | .func .defaultSendStub => .error "Please Provide Send Function"
  | .func (.userSend _) => .ok ()
  | _ => .error "TypeError: send is not a function"

/-- Whether an action is a filters send carrying the prioritized flag. -/
def isPrioritizedFiltersSend : Action → Bool
  | .sendFilters _ _ pr => pr
  | _ => false

/-- Sample socket in status CONNECTED with penalty 3. -/
def socketA : Socket := { id := "A", status := .connected, penalties := 3 }

/-- Sample socket in status CONNECTED with penalty 1. -/
def socketB : Socket := { id := "B", status := .connected, penalties := 1 }

/-- Sample socket in status RECONNECTING with penalty 0. -/
def socketC : Socket := { id := "C", status := .reconnecting, penalties := 0 }

/-- Sample healthy socket used as a failover target. -/
def socketY : Socket := { id := "Y", status := .connected, penalties := 2 }

/-- Sample fully attached player bound to socket `X`, mid-track. -/
def samplePlayerP : Player :=
  { guild := "g1"
    socketId := "X"
    channel := some "c1"
    position := 42000
    track := some "T"
    sessionId := some "sess"
    server := some "srv"
    filters := Filters.initial }

/-- Sample player bound to socket `X` whose channel is null. -/
def samplePlayerNull : Player :=
  { guild := "g2"
    socketId := "X"
    channel := none
    position := 100
    track := some "T"
    sessionId := some "sess"
    server := some "srv"
    filters := Filters.initial }

/-- Sample player bound to socket `X` holding only the server half of the
voice handshake. -/
def samplePlayerHalf : Player :=
  { guild := "g3"
    socketId := "X"
    channel := some "c1"
    position := 7
    track := some "T"
    sessionId := none
    server := some "srv"
    filters := Filters.initial }

/-- Find is unchanged when the predicates agree on every element. -/
theorem find_congr {α : Type} {p q : α → Bool} {l : List α}
    (h : ∀ a ∈ l, p a = q a) : l.find? p = l.find? q := by
  induction l with
  | nil => rfl
  | cons a l ih =>
    have ha : p a = q a := h a (List.mem_cons_self a l)
    cases hq : q a with
    | true =>
      rw [List.find?_cons_of_pos _ (ha.trans hq), List.find?_cons_of_pos _ hq]
    | false =>
      rw [List.find?_cons_of_neg _ (by simp [ha, hq]),
        List.find?_cons_of_neg _ (by simp [hq])]
      exact ih fun b hb => h b (List.mem_cons_of_mem _ hb)

/-- The head of the stable penalty sort of `l` is the first element of `l`
whose penalty is at or below every element's penalty. -/
theorem head_insertionSort_eq_find_min (l : List Socket) :
    (l.insertionSort fun a b => a.penalties ≤ b.penalties).head? =
      l.find? fun s => l.all fun t => decide (s.penalties ≤ t.penalties) := by
  induction l with
  | nil => rfl
  | cons x xs ih =>
    cases hs : xs.insertionSort fun a b => a.penalties ≤ b.penalties with
    | nil =>
      have hxs : xs = [] := by
        have hlen := List.length_insertionSort
          (fun a b : Socket => a.penalties ≤ b.penalties) xs
        rw [hs] at hlen
        exact List.length_eq_zero.mp hlen.symm
      subst hxs
      simp [List.insertionSort, List.orderedInsert, List.find?]
    | cons y ys =>
      have hy : (xs.find? fun s => xs.all fun t =>
          decide (s.penalties ≤ t.penalties)) = some y := by
        rw [← ih, hs]; rfl
      have hymem : y ∈ xs := by
        have hmem : y ∈ xs.insertionSort fun a b => a.penalties ≤ b.penalties := by
          rw [hs]; exact List.mem_cons_self y ys
        exact (List.mem_insertionSort
          (fun a b : Socket => a.penalties ≤ b.penalties)).mp hmem
      have hymin : ∀ t ∈ xs, y.penalties ≤ t.penalties := by
        have := List.find?_some hy
        simpa [List.all_eq_true] using this
      by_cases hxy : x.penalties ≤ y.penalties
      · have hLHS : ((x :: xs).insertionSort fun a b =>
            a.penalties ≤ b.penalties).head? = some x := by
          simp [List.insertionSort, hs, List.orderedInsert, hxy]
        have hpx : ((x :: xs).all fun t =>
            decide (x.penalties ≤ t.penalties)) = true := by
          simp only [List.all_eq_true, decide_eq_true_eq]
          intro t ht
          rcases List.mem_cons.mp ht with h1 | h2
          · exact h1 ▸ le_refl _
          · exact le_trans hxy (hymin t h2)
        rw [hLHS]
        refine (List.find?_cons_of_pos xs ?_).symm
        exact hpx
      · have hLHS : ((x :: xs).insertionSort fun a b =>
            a.penalties ≤ b.penalties).head? = some y := by
          simp [List.insertionSort, hs, List.orderedInsert, hxy]
        have hpx : ¬ ((x :: xs).all fun t =>
            decide (x.penalties ≤ t.penalties)) = true := by
          simp only [List.all_eq_true, decide_eq_true_eq]
          push_neg
          exact ⟨y, List.mem_cons_of_mem _ hymem, lt_of_not_le hxy⟩
        rw [hLHS]
        have hstep : (List.find? (fun s => (x :: xs).all fun t =>
              decide (s.penalties ≤ t.penalties)) (x :: xs)) =
            List.find? (fun s => (x :: xs).all fun t =>
              decide (s.penalties ≤ t.penalties)) xs :=
          List.find?_cons_of_neg xs hpx
        rw [hstep]
        have hcg : (xs.find? fun s => (x :: xs).all fun t =>
              decide (s.penalties ≤ t.penalties)) =
            xs.find? fun s => xs.all fun t => decide (s.penalties ≤ t.penalties) := by
          apply find_congr
          intro a ha
          simp only [List.all_cons]
          cases hall : xs.all fun t => decide (a.penalties ≤ t.penalties) with
          | true =>
            have hay : a.penalties ≤ y.penalties := by
              have hyt := (List.all_eq_true.mp hall) y hymem
              simpa using hyt
            simp [le_trans hay (le_of_lt (lt_of_not_le hxy))]
          | false => simp
        rw [hcg, hy]

/-- C2: node selection returns the CONNECTED socket with the lowest
penalty, ties broken by configuration order, and none when no socket is
CONNECTED; on `[(A,CONNECTED,3), (B,CONNECTED,1), (C,RECONNECTING,0)]` it
returns `B`. -/
theorem c2_ideal_head_selects_lowest_penalty_connected :
    (∀ sockets : List Socket,
      (ideal sockets).head? = selectConnectionSpec sockets) ∧
    (∀ sockets : List Socket,
      ((ideal sockets).head? = none ↔
        (sockets.filter fun s => s.status.code == 0) = [])) ∧
    (ideal [socketA, socketB, socketC]).head? = some socketB := by
  refine ⟨fun sockets => head_insertionSort_eq_find_min _, fun sockets => ?_, by decide⟩
  unfold ideal
  rw [List.head?_eq_none_iff]
  constructor
  · intro h
    have hlen := List.length_insertionSort
      (fun a b : Socket => a.penalties ≤ b.penalties)
      (sockets.filter fun s => s.status.code == 0)
    rw [h] at hlen
    exact List.length_eq_zero.mp hlen.symm
  · intro h
    rw [h]
    rfl

/-- C4: the filter payload always carries `volume` and `equalizer`, and
each other key appears exactly when its enabled predicate holds:
timescale non-null with some present field other than 1, karaoke non-null,
tremolo non-null with depth other than 0, rotation non-null with
rotationHz other than 0, and distortion non-null with some field other
than null. -/
theorem c4_payload_keys (f : Filters) :
    (f.payload.volume.isSome ∧ f.payload.equalizer.isSome) ∧
    (f.payload.timescale.isSome ↔
      ∃ t, f.timescale = some t ∧ ∃ v ∈ t.values, v ≠ 1) ∧
    (f.payload.karaoke.isSome ↔ ∃ k, f.karaoke = some k) ∧
    (f.payload.tremolo.isSome ↔
      ∃ t, f.tremolo = some t ∧ t.depth ≠ some 0) ∧
    (f.payload.rotation.isSome ↔
      ∃ r, f.rotation = some r ∧ r.rotationHz ≠ some 0) ∧
    (f.payload.distortion.isSome ↔
      ∃ d, f.distortion = some d ∧ d.values ≠ []) := by
  refine ⟨⟨rfl, rfl⟩, ?_, ?_, ?_, ?_, ?_⟩
  · cases ht : f.timescale with
    | none => simp [Filters.payload, Filters.isTimescaleEnabled, ht]
    | some t =>
      simp [Filters.payload, Filters.isTimescaleEnabled, ht, List.any_eq_true]
  · cases hk : f.karaoke with
    | none => simp [Filters.payload, Filters.isKaraokeEnabled, hk]
    | some k => simp [Filters.payload, Filters.isKaraokeEnabled, hk]
  · cases ht : f.tremolo with
    | none => simp [Filters.payload, Filters.isTremoloEnabled, ht]
    | some t => simp [Filters.payload, Filters.isTremoloEnabled, ht]
  · cases hr : f.rotation with
    | none => simp [Filters.payload, Filters.isRotationEnabled, hr]
    | some r => simp [Filters.payload, Filters.isRotationEnabled, hr]
  · cases hd : f.distortion with
    | none => simp [Filters.payload, Filters.isDistortionEnabled, hd]
    | some d =>
      simp [Filters.payload, Filters.isDistortionEnabled, hd,
        List.isEmpty_iff]

/-- C1: a player on the lost socket with a live channel has its anchors
captured as `max(position, 0)` and the current time before polling starts;
when a socket is found at `found_time`, the stored track is replayed with
`startTime = anchorPosition + (found_time - anchorTime) + 1000`, the grace
constant being exactly 1000 ms, with the filter payload resent and the
player moved to the found socket. -/
theorem c1_failover_anchor_and_resume
    (p : Player) (lostId : String) (now found_time : Int) (target : Socket)
    (t : String)
    (hsock : p.socketId = lostId) (hchan : jsTruthy p.channel = true)
    (htrack : p.track = some t) (ht : t ≠ "") :
    Manager.fallbackPlayer lostId now p =
      FallbackOutcome.pending (max p.position 0) now ∧
    Action.play p.guild t (max p.position 0 + ((found_time - now) + 1000)) ∈
      find_socket target p (max p.position 0) now found_time ∧
    Action.sendFilters p.guild p.filters.payload false ∈
      find_socket target p (max p.position 0) now found_time ∧
    Action.move p.guild target.id ∈
      find_socket target p (max p.position 0) now found_time := by
  refine ⟨?_, ?_, ?_, ?_⟩
  · simp [Manager.fallbackPlayer, hsock, hchan]
  · simp [find_socket, htrack, ht, Filters.apply]
  · simp [find_socket, htrack, ht, Filters.apply]
  · simp [find_socket, htrack, ht, Filters.apply]

/-- Witness for C1 at a concrete player: position 42000, the loss observed
at time 5, a socket found at time 20, so the track resumes at
42000 + 15 + 1000 = 43015. -/
theorem c1_failover_anchor_and_resume_witness :
    Manager.fallbackPlayer "X" 5 samplePlayerP =
      FallbackOutcome.pending 42000 5 ∧
    Action.play "g1" "T" 43015 ∈ find_socket socketY samplePlayerP 42000 5 20 := by
  have h := c1_failover_anchor_and_resume samplePlayerP "X" 5 20 socketY "T"
    rfl (by decide) rfl (by decide)
  exact ⟨by simpa using h.1, by simpa using h.2.1⟩

/-- C5 counterexample: on a lost socket, a player whose channel is null is
merely deleted from the player map — the failover sweep emits no teardown,
while the manager's destroy operation (the claimed behaviour) would emit
one before deleting. -/
theorem c5_counterexample :
    Manager.fallbackPlayer "X" 0 samplePlayerNull = FallbackOutcome.removed ∧
    fallbackOutcomeActions samplePlayerNull
        (Manager.fallbackPlayer "X" 0 samplePlayerNull) =
      [Action.deletePlayer "g2"] ∧
    Action.teardown "g2" ∉ fallbackOutcomeActions samplePlayerNull
        (Manager.fallbackPlayer "X" 0 samplePlayerNull) ∧
    (Manager.destroy
        { userId := none, sockets := [], players := [samplePlayerNull] }
        "g2").1 =
      [Action.teardown "g2", Action.deletePlayer "g2"] := by
  decide

/-- C5 amended: a player whose channel is null at connection loss is
removed from the player map (a bare map deletion, with no teardown sent)
and is never relocated (the poll never starts for it). -/
theorem c5_fallback_null_channel_removed_only
    (p : Player) (lostId : String) (now : Int)
    (hsock : p.socketId = lostId) (hchan : p.channel = none) :
    Manager.fallbackPlayer lostId now p = FallbackOutcome.removed ∧
    fallbackOutcomeActions p (Manager.fallbackPlayer lostId now p) =
      [Action.deletePlayer p.guild] := by
  have hout : Manager.fallbackPlayer lostId now p = FallbackOutcome.removed := by
    simp [Manager.fallbackPlayer, hsock, hchan, jsTruthy]
  exact ⟨hout, by rw [hout]; rfl⟩

/-- Witness for C5 amended at the concrete null-channel player. -/
theorem c5_fallback_null_channel_removed_only_witness :
    Manager.fallbackPlayer "X" 0 samplePlayerNull = FallbackOutcome.removed ∧
    fallbackOutcomeActions samplePlayerNull
        (Manager.fallbackPlayer "X" 0 samplePlayerNull) =
      [Action.deletePlayer "g2"] :=
  c5_fallback_null_channel_removed_only samplePlayerNull "X" 0 rfl rfl

/-- C6 counterexample: a player that holds only the server half of the
handshake is still relocated — the poll starts for it, the move happens,
the combined voice update is sent with the missing half, and no teardown
occurs. -/
theorem c6_counterexample :
    samplePlayerHalf.sessionId = none ∧
    Manager.fallbackPlayer "X" 0 samplePlayerHalf =
      FallbackOutcome.pending 7 0 ∧
    Action.sendVoiceUpdate "g3" none (some "srv") ∈
      find_socket socketY samplePlayerHalf 7 0 3 ∧
    Action.move "g3" "Y" ∈ find_socket socketY samplePlayerHalf 7 0 3 ∧
    Action.teardown "g3" ∉ find_socket socketY samplePlayerHalf 7 0 3 := by
  decide

/-- C6 amended: during relocation the combined voice update is re-sent
unconditionally, carrying whichever handshake halves the player stores
(either may be absent); the player is moved to the new socket regardless,
and the relocation never destroys a player. -/
theorem c6_relocation_resends_voice_update_unconditionally
    (target : Socket) (p : Player) (position startfind found_time : Int) :
    Action.sendVoiceUpdate p.guild p.sessionId p.server ∈
      find_socket target p position startfind found_time ∧
    Action.move p.guild target.id ∈
      find_socket target p position startfind found_time ∧
    ∀ g, Action.teardown g ∉ find_socket target p position startfind found_time := by
  refine ⟨?_, ?_, ?_⟩
  · simp [find_socket]
  · simp [find_socket]
  · intro g
    cases htr : p.track with
    | none => simp [find_socket, htr, Filters.apply]
    | some t =>
      by_cases he : t = ""
      · simp [find_socket, htr, he, Filters.apply]
      · simp [find_socket, htr, he, Filters.apply]

/-- C9 counterexample: the concrete relocation trace of a fully attached
player; its only filters send carries the prioritized flag `false`, and no
action in the trace is a prioritized filters send. -/
theorem c9_counterexample :
    find_socket socketY samplePlayerP 42000 5 20 =
      [Action.move "g1" "Y",
       Action.sendVoiceUpdate "g1" (some "sess") (some "srv"),
       Action.sendFilters "g1" Filters.initial.payload false,
       Action.play "g1" "T" 43015] ∧
    (find_socket socketY samplePlayerP 42000 5 20).any
      isPrioritizedFiltersSend = false := by
  decide

/-- C9 amended: the failover relocation reapplies the filters through
`Filters.apply` with the priority flag left at its default `false`; no
prioritized filters send appears anywhere in the relocation trace. -/
theorem c9_filters_reapplied_without_priority
    (target : Socket) (p : Player) (position startfind found_time : Int) :
    p.filters.apply p.guild false ∈
      find_socket target p position startfind found_time ∧
    (find_socket target p position startfind found_time).any
      isPrioritizedFiltersSend = false := by
  constructor
  · simp [find_socket]
  · cases htr : p.track with
    | none => simp [find_socket, htr, Filters.apply, isPrioritizedFiltersSend]
    | some t =>
      by_cases he : t = ""
      · simp [find_socket, htr, he, Filters.apply, isPrioritizedFiltersSend]
      · simp [find_socket, htr, he, Filters.apply, isPrioritizedFiltersSend]

/-- C3: a second `create` with the same guild id returns the very player
the first call produced and leaves the manager state — in particular that
player's socket binding — unchanged. -/
theorem c3_create_idempotent
    (m m2 : Manager) (guildId : String) (a1 a2 : Option Socket) (p : Player)
    (h : m.create guildId a1 = .ok (p, m2)) :
    m2.create guildId a2 = .ok (p, m2) := by
  unfold Manager.create at h ⊢
  cases hf : m.players.find? fun q => q.guild == guildId with
  | some existing =>
    rw [hf] at h
    simp only [Except.ok.injEq, Prod.mk.injEq] at h
    obtain ⟨hp, hm⟩ := h
    subst hp; subst hm
    rw [hf]
  | none =>
    rw [hf] at h
    cases ha : a1 with
    | some s =>
      rw [ha] at h
      simp only [Except.ok.injEq, Prod.mk.injEq] at h
      obtain ⟨hp, hm⟩ := h
      subst hp
      subst hm
      have hfind : (m.players ++ [newPlayer s guildId]).find?
          (fun q => q.guild == guildId) = some (newPlayer s guildId) := by
        rw [List.find?_append, hf]
        simp [newPlayer]
      simp only [hfind]
    | none =>
      rw [ha] at h
      cases hi : (ideal m.sockets).head? with
      | none => rw [hi] at h; exact absurd h (by simp)
      | some s =>
        rw [hi] at h
        simp only [Except.ok.injEq, Prod.mk.injEq] at h
        obtain ⟨hp, hm⟩ := h
        subst hp
        subst hm
        have hfind : (m.players ++ [newPlayer s guildId]).find?
            (fun q => q.guild == guildId) = some (newPlayer s guildId) := by
          rw [List.find?_append, hf]
          simp [newPlayer]
        simp only [hfind]

/-- Sample manager holding one connected socket and no players. -/
def sampleManagerEmpty : Manager :=
  { userId := some "bot", sockets := [socketY], players := [] }

/-- Witness for C3: creating "g9" twice on the sample manager returns the
same player and the same state both times. -/
theorem c3_create_idempotent_witness :
    Manager.create
        { sampleManagerEmpty with players := [newPlayer socketY "g9"] }
        "g9" none =
      Except.ok (newPlayer socketY "g9",
        { sampleManagerEmpty with players := [newPlayer socketY "g9"] }) :=
  c3_create_idempotent sampleManagerEmpty _ "g9" none none _ rfl

/-- C10: the existence check in `create` precedes the availability check,
so a guild that already has a player gets it back even with no available
socket, and the no-available-nodes error can only arise for a brand-new
player. -/
theorem c10_create_existing_before_availability
    (m : Manager) (guildId : String) (socketArg : Option Socket) :
    (∀ p, m.players.find? (fun q => q.guild == guildId) = some p →
      m.create guildId socketArg = .ok (p, m)) ∧
    (∀ e, m.create guildId socketArg = .error e →
      m.players.find? (fun q => q.guild == guildId) = none) := by
  constructor
  · intro p hp
    unfold Manager.create
    rw [hp]
  · intro e he
    unfold Manager.create at he
    cases hf : m.players.find? fun q => q.guild == guildId with
    | none => rfl
    | some existing => rw [hf] at he; exact absurd he (by simp)

/-- Witness for C10 at a manager with an existing player and an empty
socket list (`ideal` head is none, yet create succeeds). -/
theorem c10_create_existing_before_availability_witness :
    (ideal ([] : List Socket)).head? = none ∧
    Manager.create
        { userId := some "bot", sockets := [],
          players := [newPlayer socketY "g9"] } "g9" none =
      Except.ok (newPlayer socketY "g9",
        { userId := some "bot", sockets := [],
          players := [newPlayer socketY "g9"] }) := by
  refine ⟨rfl, ?_⟩
  exact (c10_create_existing_before_availability
    { userId := some "bot", sockets := [], players := [newPlayer socketY "g9"] }
    "g9" none).1 (newPlayer socketY "g9") (by decide)

/-- C7 counterexample: construction with the send key entirely absent does
not throw — the merged options keep the default stub, construction
succeeds, and the stub's error surfaces only when the send function is
later invoked. -/
theorem c7_counterexample :
    Manager.construct { send := none, shards := none } =
      Except.ok { send := JSVal.func JSFun.defaultSendStub, shards := 1 } ∧
    callSend (JSVal.func JSFun.defaultSendStub) =
      Except.error "Please Provide Send Function" :=
  ⟨rfl, rfl⟩

/-- C7 amended: an explicitly passed falsy or non-function send value
throws synchronously at construction, and a shard count below one throws
synchronously; but an omitted send key does not throw at construction —
the default send stub is installed and its error is raised only when the
send function is first called. -/
theorem c7_construction_errors (o : ManagerOptionsIn) :
    (∀ v, o.send = some v → (v.truthy = false ∨ v.isFunctionTy = false) →
      Manager.construct o = .error sendCheckError) ∧
    ((o.send = none ∨ ∃ f, o.send = some (JSVal.func f)) →
      o.shards.getD 1 < 1 →
      Manager.construct o = .error shardCheckError) ∧
    (o.send = none → 1 ≤ o.shards.getD 1 →
      Manager.construct o =
        .ok { send := JSVal.func JSFun.defaultSendStub,
              shards := o.shards.getD 1 } ∧
      callSend (JSVal.func JSFun.defaultSendStub) =
        .error "Please Provide Send Function") := by
  refine ⟨?_, ?_, ?_⟩
  · intro v hv hbad
    unfold Manager.construct
    rw [hv]
    rcases hbad with hb | hb <;> simp [hb]
  · intro hfun hsh
    unfold Manager.construct
    rcases hfun with hn | ⟨f, hf⟩
    · rw [hn]
      simp [JSVal.truthy, JSVal.isFunctionTy, hsh, not_le.mpr hsh]
    · rw [hf]
      simp [JSVal.truthy, JSVal.isFunctionTy, hsh, not_le.mpr hsh]
  · intro hn hsh
    unfold Manager.construct
    rw [hn]
    refine ⟨?_, rfl⟩
    simp [JSVal.truthy, JSVal.isFunctionTy, not_lt.mpr hsh]

/-- Witness for C7 amended: a null send throws the send error, shards 0
with a user function throws the shard error, and the omitted-send
construction succeeds with the deferred-throwing stub. -/
theorem c7_construction_errors_witness :
    Manager.construct { send := some JSVal.nullVal, shards := none } =
      Except.error sendCheckError ∧
    Manager.construct
        { send := some (JSVal.func (JSFun.userSend 0)), shards := some 0 } =
      Except.error shardCheckError ∧
    Manager.construct { send := none, shards := some 2 } =
      Except.ok { send := JSVal.func JSFun.defaultSendStub, shards := 2 } := by
  refine ⟨?_, ?_, ?_⟩
  · exact (c7_construction_errors
      { send := some JSVal.nullVal, shards := none }).1
      JSVal.nullVal rfl (Or.inl rfl)
  · exact (c7_construction_errors
      { send := some (JSVal.func (JSFun.userSend 0)), shards := some 0 }).2.1
      (Or.inr ⟨JSFun.userSend 0, rfl⟩) (by decide)
  · exact ((c7_construction_errors
      { send := none, shards := some 2 }).2.2 rfl (by decide)).1

/-- C8: a voice state update whose `user_id` differs from the configured
client id leaves the player untouched and dispatches nothing; one whose
`user_id` matches and whose `channel_id` differs from the stored channel
raises exactly one `"move"` event and rewrites the channel to the new
value. -/
theorem c8_state_update
    (m : Manager) (u : DiscordVoiceState) (p : Player)
    (hfind : m.players.find? (fun q => q.guild == u.guild_id) = some p) :
    (some u.user_id ≠ m.userId → m.stateUpdate u = (some p, [], [])) ∧
    (some u.user_id = m.userId → u.channel_id ≠ p.channel →
      (m.stateUpdate u).2.1 = [PlayerEvent.move p.guild u.channel_id] ∧
      ∃ q, (m.stateUpdate u).1 = some q ∧ q.channel = u.channel_id ∧
        q.sessionId = some u.session_id) := by
  constructor
  · intro hne
    unfold Manager.stateUpdate
    rw [hfind]
    simp only [beq_iff_eq]
    rw [if_neg hne]
  · intro heq hch
    unfold Manager.stateUpdate
    rw [hfind]
    simp only [beq_iff_eq]
    rw [if_pos heq]
    simp only [bne_iff_ne, ne_eq, hch, not_false_eq_true, if_true]
    unfold handleVoiceState
    by_cases hs : p.server.isSome
    · simp [hs]
    · simp [hs]

/-- Witness for C8: on a manager whose client id is "bot", an update from
user "other" changes nothing, while an update from "bot" moving the player
to channel "c2" raises the move event and rewrites the channel. -/
theorem c8_state_update_witness :
    (Manager.stateUpdate
        { userId := some "bot", sockets := [], players := [samplePlayerP] }
        { channel_id := some "c2", guild_id := "g1",
          user_id := "other", session_id := "s2" } =
      (some samplePlayerP, [], [])) ∧
    ((Manager.stateUpdate
        { userId := some "bot", sockets := [], players := [samplePlayerP] }
        { channel_id := some "c2", guild_id := "g1",
          user_id := "bot", session_id := "s2" }).2.1 =
      [PlayerEvent.move "g1" (some "c2")] ∧
      ∃ q, (Manager.stateUpdate
        { userId := some "bot", sockets := [], players := [samplePlayerP] }
        { channel_id := some "c2", guild_id := "g1",
          user_id := "bot", session_id := "s2" }).1 = some q ∧
        q.channel = some "c2" ∧ q.sessionId = some "s2") := by
  constructor
  · exact (c8_state_update
      { userId := some "bot", sockets := [], players := [samplePlayerP] }
      { channel_id := some "c2", guild_id := "g1",
        user_id := "other", session_id := "s2" }
      samplePlayerP (by decide)).1 (by decide)
  · have h2 := (c8_state_update
      { userId := some "bot", sockets := [], players := [samplePlayerP] }
      { channel_id := some "c2", guild_id := "g1",
        user_id := "bot", session_id := "s2" }
      samplePlayerP (by decide)).2 rfl (by decide)
    exact h2

end Lavaclient
